import Mathlib

/-!
Verification development for the robinrust crypto-brokerage API client.

The Rust sources are embedded shallowly:

* `auth.rs` — the `Robinhood` credential struct, `from_env`, `create_signature`
  and `auth_headers`.  The system clock is passed explicitly as the Unix-seconds
  value `ts`; the Ed25519 primitive of `ed25519_dalek` is an explicit function
  parameter `sign` from key bytes and message to signature bytes; `panic!`/
  `expect` is modelled by `Option`/`none`.
* `market_data.rs`, `trading.rs`, `account.rs` — path/query construction, the
  signed `(path, method, body)` triple versus the HTTP request actually issued,
  the `?`-propagated error pipeline (`Except`), order-listing query
  serialization performed by reqwest's `query`, and the cancel-response
  unquoting done with `trim_matches('"')`.

Bytes are `Nat` values below 256.  Base64 (standard alphabet, padded, as used
by the `base64` crate's `STANDARD` engine) is implemented in full, with a
decode/encode roundtrip proof.  Decimal rendering of integers (Rust `Display`)
is implemented with a fuel-based recursion and proved injective.
-/

namespace Robinrust

/-! ## Decimal rendering of natural numbers (Rust integer `Display`) -/

/-- Decimal digits of `n`, least significant first.  The first argument is
fuel bounding the recursion depth; any fuel `≥ n` is enough since the value
shrinks by a factor of ten each step. -/
def digitsRevAux : Nat → Nat → List Nat
  | 0, _ => []
  | fuel + 1, n => if n = 0 then [] else n % 10 :: digitsRevAux fuel (n / 10)

/-- Character for one decimal digit. -/
def decDigitChar (d : Nat) : Char := Char.ofNat (48 + d)

/-- The decimal string of a natural number, as Rust's integer `Display`
(and hence `format!("{}", ts)` / `ts.to_string()`) produces it. -/
def decimalString (n : Nat) : String :=
  if n = 0 then "0" else String.mk ((digitsRevAux (n + 1) n).reverse.map decDigitChar)

/-- Value of a digit list, least significant first. -/
def ofRev : List Nat → Nat
  | [] => 0
  | d :: ds => d + 10 * ofRev ds

/-- Read a decimal string back to a number (used to invert `decimalString`). -/
def natFromDigits (s : String) : Nat :=
  s.data.foldl (fun acc c => 10 * acc + (c.toNat - 48)) 0

/-! ## Base64, standard alphabet with padding (the `base64` crate `STANDARD` engine) -/

/-- The 64 characters of the standard base64 alphabet, in value order. -/
def b64Alphabet : List Char :=
  "ABCDEFGHIJKLMNOPQRSTUVWXYZabcdefghijklmnopqrstuvwxyz0123456789+/".data

/-- Index of a character in a character list, if present. -/
def charIndex (c : Char) : List Char → Option Nat
  | [] => none
  | a :: rest => if a = c then some 0 else (charIndex c rest).map (· + 1)

/-- The 6-bit value of a base64 character, `none` for characters outside the
alphabet (including `'='`). -/
def b64Val (c : Char) : Option Nat := charIndex c b64Alphabet

/-- The base64 character for a 6-bit value. -/
def b64Char (v : Nat) : Char := b64Alphabet.getD v 'A'

/-- Encode a byte list to base64 characters, emitting `'='` padding exactly as
the standard padded encoding does. -/
def b64EncodeList : List Nat → List Char
  | [] => []
  | [a] => [b64Char (a / 4), b64Char (a % 4 * 16), '=', '=']
  | [a, b] => [b64Char (a / 4), b64Char (a % 4 * 16 + b / 16), b64Char (b % 16 * 4), '=']
  | a :: b :: c :: rest =>
    b64Char (a / 4) :: b64Char (a % 4 * 16 + b / 16) :: b64Char (b % 16 * 4 + c / 64) ::
      b64Char (c % 64) :: b64EncodeList rest

/-- Base64-encode a byte list to a string (standard alphabet, padded). -/
def b64Encode (bs : List Nat) : String := String.mk (b64EncodeList bs)

/-- Decode base64 characters.  Rejects any input that is not the canonical
padded encoding of some byte sequence, as the `base64` crate's `STANDARD`
engine does. -/
def b64DecodeList : List Char → Option (List Nat)
  | [] => some []
  | c1 :: c2 :: c3 :: c4 :: rest =>
    match b64Val c1, b64Val c2 with
    | some v1, some v2 =>
      if c3 = '=' then
        if c4 = '=' ∧ rest = [] ∧ v2 % 16 = 0 then some [v1 * 4 + v2 / 16] else none
      else
        match b64Val c3 with
        | some v3 =>
          if c4 = '=' then
            if rest = [] ∧ v3 % 4 = 0 then
              some [v1 * 4 + v2 / 16, v2 % 16 * 16 + v3 / 4]
            else none
          else
            match b64Val c4 with
            | some v4 =>
              (b64DecodeList rest).map fun tail =>
                (v1 * 4 + v2 / 16) :: (v2 % 16 * 16 + v3 / 4) :: (v3 % 4 * 64 + v4) :: tail
            | none => none
        | none => none
    | _, _ => none
  | _ => none

/-- Base64-decode a string to bytes; `none` models a decode error. -/
def b64Decode (s : String) : Option (List Nat) := b64DecodeList s.data

/-! ## Rust `str::trim_matches` with a quote pattern (`trading.rs`, cancel path) -/

/-- Test for the `'"'` pattern character. -/
def isQuote (c : Char) : Bool := c == '"'

/-- `body.trim_matches('"')`: remove every leading and every trailing `'"'`
character of the string. -/
def trimQuoteMatches (s : String) : String :=
  String.mk (List.rdropWhile isQuote (List.dropWhile isQuote s.data))

/-! ## `auth.rs`: credentials, message construction, signature, headers

The system clock (`SystemTime::now(...).as_secs()`) is the explicit parameter
`ts`; the Ed25519 signing primitive of `ed25519_dalek` (external library) is
the explicit parameter `sign`, taking the 32 decoded key bytes and the message
string (the code signs the message's UTF-8 bytes) to the signature bytes.
`expect`/panics are modelled by `Option` with `none` for the panic. -/

/-- The `Robinhood` credential struct of `auth.rs`. -/
structure Robinhood where
  api_key : String
  signing_priv_b64 : String
  signing_public_key : String

/-- `Robinhood::from_env`: read the three required environment variables from
the process environment `env` (after the optional dotenv load); a missing
variable panics (`none`). -/
def from_env (env : String → Option String) : Option Robinhood :=
  match env "ROBINHOOD_API_KEY", env "ROBINHOOD_SIGNING_PRIVATE_B64",
      env "ROBINHOOD_PUBLIC_KEY" with
  | some a, some k, some p =>
    some { api_key := a, signing_priv_b64 := k, signing_public_key := p }
  | _, _, _ => none

/-- The message `create_signature` builds:
`format!("{}{}{}{}{}", self.api_key, ts, path, method, body)`. -/
def signing_message (api_key : String) (ts : Nat) (path method body : String) : String :=
  api_key ++ decimalString ts ++ path ++ method ++ body

/-- `Robinhood::create_signature`: decode the stored base64 private key
(panicking on bad base64 or on a length other than 32 bytes), build the
message, sign it, and return the base64 signature with the timestamp string. -/
def create_signature (sign : List Nat → String → List Nat) (rh : Robinhood) (ts : Nat)
    (path method body : String) : Option (String × String) :=
  match b64Decode rh.signing_priv_b64 with
  | none => none
  | some sk_bytes =>
    if sk_bytes.length = 32 then
      some (b64Encode (sign sk_bytes (signing_message rh.api_key ts path method body)),
        decimalString ts)
    else none

/-- `Robinhood::auth_headers`: the three headers inserted into the header map,
in insertion order. -/
def auth_headers (sign : List Nat → String → List Nat) (rh : Robinhood) (ts : Nat)
    (path method body : String) : Option (List (String × String)) :=
  (create_signature sign rh ts path method body).map fun st =>
    [("x-api-key", rh.api_key), ("x-timestamp", st.2), ("x-signature", st.1)]

/-! ## Endpoint request models

For every operation we record both the `(path, method, body)` triple handed to
`auth_headers` and the path/method/body of the HTTP request the operation then
issues (`sentPath` is the URL part after the fixed origin
`https://trading.robinhood.com`). -/

/-- The signed triple and the issued request of one endpoint operation. -/
structure EndpointRequest where
  signedPath : String
  signedMethod : String
  signedBody : String
  sentPath : String
  sentMethod : String
  sentBody : Option String

/-- The shared query-building loop of `get_best_price`,
`get_crypto_trading_pairs` and `get_crypto_holdings`: when `symbols` is
nonempty, push `'?'` and then for each symbol (with `'&'` before every
element except the first) push `name=` and the symbol. -/
def buildSymbolQueryPath (base name : String) (symbols : List String) : String :=
  if symbols.isEmpty then base
  else
    (symbols.enum).foldl
      (fun acc pr => (if pr.1 > 0 then acc ++ "&" else acc) ++ name ++ "=" ++ pr.2)
      (base ++ "?")

/-- `x & join` of query fragments: elements joined by `'&'`. -/
def ampJoin : List String → String
  | [] => ""
  | [x] => x
  | x :: y :: xs => x ++ "&" ++ ampJoin (y :: xs)

/-- Helper for reasoning about the query loop: each fragment preceded by `'&'`. -/
def ampPairs (name : String) : List String → String
  | [] => ""
  | s :: rest => "&" ++ name ++ "=" ++ s ++ ampPairs name rest

def bestBidAskBasePath : String := "/api/v1/crypto/marketdata/best_bid_ask/"

def tradingPairsBasePath : String := "/api/v1/crypto/trading/trading_pairs/"

def holdingsBasePath : String := "/api/v1/crypto/trading/holdings/"

def ordersBasePath : String := "/api/v1/crypto/trading/orders/"

def accountsBasePath : String := "/api/v1/crypto/trading/accounts/"

/-- Path built by `get_best_price` (repeated `symbol=` filters). -/
def get_best_price_path (symbols : List String) : String :=
  buildSymbolQueryPath bestBidAskBasePath "symbol" symbols

/-- Path built by `get_crypto_trading_pairs` (repeated `symbol=` filters). -/
def get_crypto_trading_pairs_path (symbols : List String) : String :=
  buildSymbolQueryPath tradingPairsBasePath "symbol" symbols

/-- Path built by `get_crypto_holdings` (repeated `asset_code=` filters). -/
def get_crypto_holdings_path (symbols : List String) : String :=
  buildSymbolQueryPath holdingsBasePath "asset_code" symbols

/-- `get_best_price`: headers are requested for the full path (query string
included), `"GET"`, empty body, and the request goes to the same path. -/
def get_best_price_request (symbols : List String) : EndpointRequest :=
  { signedPath := get_best_price_path symbols, signedMethod := "GET", signedBody := "",
    sentPath := get_best_price_path symbols, sentMethod := "GET", sentBody := none }

/-- `get_estimated_price`'s `format!` path; `quantity` is the `Display`
rendering of the `Decimal` argument. -/
def get_estimated_price_path (symbol side quantity : String) : String :=
  "/api/v1/crypto/marketdata/estimated_price/?symbol=" ++ symbol ++ "&side=" ++ side ++
    "&quantity=" ++ quantity

/-- `get_estimated_price`: signed and sent paths coincide. -/
def get_estimated_price_request (symbol side quantity : String) : EndpointRequest :=
  { signedPath := get_estimated_price_path symbol side quantity, signedMethod := "GET",
    signedBody := "", sentPath := get_estimated_price_path symbol side quantity,
    sentMethod := "GET", sentBody := none }

/-- `get_account_info`: fixed path, `"GET"`, empty body. -/
def get_account_info_request : EndpointRequest :=
  { signedPath := accountsBasePath, signedMethod := "GET", signedBody := "",
    sentPath := accountsBasePath, sentMethod := "GET", sentBody := none }

/-- The `GetCryptoOrderParams` builder struct (`trading.rs`): every field is
optional and serialized only when present; `type_` serializes under the wire
name `type`; `limit` is a `u32`. -/
structure GetCryptoOrderParams where
  created_at_start : Option String
  created_at_end : Option String
  symbol : Option String
  id : Option String
  side : Option String
  state : Option String
  type_ : Option String
  updated_at_start : Option String
  updated_at_end : Option String
  cursor : Option String
  limit : Option Nat

/-- One `name=value` pair when the optional field is present. -/
def optPair (name : String) : Option String → List (String × String)
  | some v => [(name, v)]
  | none => []

/-- The query pairs serde derives for `GetCryptoOrderParams`, in field
declaration order, skipping absent fields (`skip_serializing_if`),
renaming `type_` to `type`. -/
def cryptoOrderQueryPairs (p : GetCryptoOrderParams) : List (String × String) :=
  optPair "created_at_start" p.created_at_start ++ optPair "created_at_end" p.created_at_end ++
    optPair "symbol" p.symbol ++ optPair "id" p.id ++ optPair "side" p.side ++
    optPair "state" p.state ++ optPair "type" p.type_ ++
    optPair "updated_at_start" p.updated_at_start ++
    optPair "updated_at_end" p.updated_at_end ++ optPair "cursor" p.cursor ++
    optPair "limit" (p.limit.map decimalString)

/-- reqwest's `RequestBuilder::query`: append the serialized pairs to the URL;
when serialization yields no pairs the URL is left without a `'?'`. -/
def querySuffix (pairs : List (String × String)) : String :=
  if pairs.isEmpty then ""
  else "?" ++ ampJoin (pairs.map fun pr => pr.1 ++ "=" ++ pr.2)

/-- `get_crypto_orders`: the headers are requested for the bare
`ordersBasePath` with empty body, while the issued request's URL additionally
carries the query pairs appended by `.query(&params)`. -/
def get_crypto_orders_request (p : GetCryptoOrderParams) : EndpointRequest :=
  { signedPath := ordersBasePath, signedMethod := "GET", signedBody := "",
    sentPath := ordersBasePath ++ querySuffix (cryptoOrderQueryPairs p),
    sentMethod := "GET", sentBody := none }

/-! ## Order and response data (`trading.rs`, `market_data.rs`, `account.rs`)

`rust_decimal::Decimal` values are modelled by their rational value. -/

abbrev Decimal := Rat

structure MarketOrderConfig where
  asset_quantity : Decimal

structure LimitOrderConfig where
  quote_amount : Option Decimal
  asset_quantity : Option Decimal
  limit_price : Option Decimal
  time_in_force : Option String

structure StopLossOrderConfig where
  quote_amount : Option Decimal
  asset_quantity : Option Decimal
  stop_price : Option Decimal
  time_in_force : Option String

structure StopLimitOrderConfig where
  quote_amount : Option Decimal
  asset_quantity : Option Decimal
  limit_price : Option Decimal
  stop_price : Option Decimal
  time_in_force : Option String

/-- `CreateCyptoOrderParams` (struct name typo as in the source). -/
structure CreateCyptoOrderParams where
  symbol : String
  client_order_id : String
  side : String
  order_type : String
  market_order_config : Option MarketOrderConfig
  limit_order_config : Option LimitOrderConfig
  stop_loss_order_config : Option StopLossOrderConfig
  stop_limit_order_config : Option StopLimitOrderConfig

structure Executions where
  effective_price : String
  quantity : String
  timestamp : String

structure CreateCryptoOrderResponse where
  id : String
  account_number : String
  symbol : String
  client_order_id : String
  side : String
  executions : List Executions
  order_type : String
  state : String
  average_price : Option Decimal
  filled_asset_quantity : Option Decimal
  created_at : String
  updated_at : String
  market_order_config : Option MarketOrderConfig
  limit_order_config : Option LimitOrderConfig
  stop_loss_order_config : Option StopLossOrderConfig
  stop_limit_order_config : Option StopLimitOrderConfig

structure AccountInfo where
  account_number : String
  status : String
  buying_power : String
  buying_power_currency : String

structure EstimatedPriceResult where
  symbol : String
  side : String
  price : Decimal
  quantity : Decimal
  bid_inclusive_of_sell_spread : Option Decimal
  sell_spread : Option Decimal
  ask_inclusive_of_buy_spread : Option Decimal
  buy_spread : Option Decimal
  timestamp : String

structure EstimatedPriceResponse where
  results : List EstimatedPriceResult

/-- `create_crypto_order`: the body handed to `auth_headers` is
`serde_json::to_string(&param)`, and `.json(&param)` serializes the same value
with the same serializer (`serialize` models `serde_json`). -/
def create_crypto_order_request (serialize : CreateCyptoOrderParams → String)
    (param : CreateCyptoOrderParams) : EndpointRequest :=
  { signedPath := ordersBasePath, signedMethod := "POST", signedBody := serialize param,
    sentPath := ordersBasePath, sentMethod := "POST", sentBody := some (serialize param) }

/-- `format!("/api/v1/crypto/trading/orders/{}/cancel/", id)`. -/
def cancel_order_path (id : String) : String :=
  "/api/v1/crypto/trading/orders/" ++ id ++ "/cancel/"

/-- `cancel_crypto_order`: bodyless POST to the cancel path. -/
def cancel_crypto_order_request (id : String) : EndpointRequest :=
  { signedPath := cancel_order_path id, signedMethod := "POST", signedBody := "",
    sentPath := cancel_order_path id, sentMethod := "POST", sentBody := none }

/-! ## The `?`-propagated request pipeline

`transport` models the HTTP client: issuing the request and reading the body,
`Except.error` for any transport failure.  `dec` models the typed JSON decode
(`.json::<T>()`), `Except.error` for a decode failure.  `requestJson` is the
`send().await?....json::<T>().await?` chain: each failure returns immediately
via `?`. -/

def requestJson {e a : Type} (resp : Except e String) (dec : String → Except e a) :
    Except e a :=
  match resp with
  | Except.error err => Except.error err
  | Except.ok body =>
    match dec body with
    | Except.error err => Except.error err
    | Except.ok v => Except.ok v

/-- `get_account_info` (`account.rs`). -/
def get_account_info {e : Type} (transport : EndpointRequest → Except e String)
    (dec : String → Except e AccountInfo) : Except e AccountInfo :=
  requestJson (transport get_account_info_request) dec

/-- `get_estimated_price` (`market_data.rs`). -/
def get_estimated_price {e : Type} (transport : EndpointRequest → Except e String)
    (dec : String → Except e EstimatedPriceResponse) (symbol side quantity : String) :
    Except e EstimatedPriceResponse :=
  requestJson (transport (get_estimated_price_request symbol side quantity)) dec

/-- `create_crypto_order` (`trading.rs`). -/
def create_crypto_order {e : Type} (transport : EndpointRequest → Except e String)
    (serialize : CreateCyptoOrderParams → String)
    (dec : String → Except e CreateCryptoOrderResponse) (param : CreateCyptoOrderParams) :
    Except e CreateCryptoOrderResponse :=
  requestJson (transport (create_crypto_order_request serialize param)) dec

/-- `cancel_crypto_order` (`trading.rs`): on transport success the body text is
returned after `trim_matches('"')`; transport errors propagate via `?`. -/
def cancel_crypto_order {e : Type} (transport : EndpointRequest → Except e String)
    (id : String) : Except e String :=
  match transport (cancel_crypto_order_request id) with
  | Except.error err => Except.error err
  | Except.ok body => Except.ok (trimQuoteMatches body)

/-! ## Trading pairs and `check_valid_trade` (`trading.rs`) -/

structure TradingPairs where
  asset_code : String
  quote_code : String
  quote_increment : String
  asset_increment : String
  max_order_size : String
  status : String
  symbol : String

/-- `TradingPairs::check_valid_trade`: parse `max_order_size` and
`asset_increment` with `Decimal::from_str` (modelled by the parameter
`fromStr`, where `unwrap` of a parse failure panics, i.e. `none`), then test
`quantity <= max_order_size && quantity >= min_order_size`. -/
def check_valid_trade (fromStr : String → Option Rat) (p : TradingPairs)
    (quantity : Rat) : Option Bool :=
  match fromStr p.max_order_size with
  | none => none
  | some max_order_size =>
    match fromStr p.asset_increment with
    | none => none
    | some min_order_size =>
      some (decide (quantity ≤ max_order_size) && decide (min_order_size ≤ quantity))

/-- Digit value of a character. -/
def digitVal (c : Char) : Option Nat :=
  if c.isDigit then some (c.toNat - 48) else none

def digitsValAux : List Char → Nat → Option Nat
  | [], acc => some acc
  | c :: cs, acc =>
    match digitVal c with
    | some d => digitsValAux cs (10 * acc + d)
    | none => none

def digitsVal (cs : List Char) : Option Nat :=
  if cs.isEmpty then none else digitsValAux cs 0

/-- Minimal value model of `rust_decimal::Decimal::from_str` (external
library), for the unsigned plain numerals used in concrete instantiations. -/
def decParse (s : String) : Option Rat :=
  match s.data.span (· != '.') with
  | (ip, []) => (digitsVal ip).map fun n => (n : Rat)
  | (ip, _ :: fp) =>
    match digitsVal ip, digitsVal fp with
    | some i, some f => some ((i : Rat) + (f : Rat) / ((10 : Rat) ^ fp.length))
    | _, _ => none

/-! ## Concrete fixtures used to instantiate the theorems -/

/-- A valid base64 encoding of a 32-byte (all-zero) private key. -/
def fixtureKeyB64 : String := b64Encode (List.replicate 32 0)

def fixtureRobinhood : Robinhood :=
  { api_key := "k1", signing_priv_b64 := fixtureKeyB64, signing_public_key := "pk" }

/-- A credential whose stored key is valid base64 of only 3 bytes. -/
def fixtureBadKeyRobinhood : Robinhood :=
  { api_key := "k1", signing_priv_b64 := "AAAA", signing_public_key := "pk" }

/-- An environment with all three variables present but a 3-byte key. -/
def fixtureEnv : String → Option String := fun k =>
  if k = "ROBINHOOD_API_KEY" then some "k1"
  else if k = "ROBINHOOD_SIGNING_PRIVATE_B64" then some "AAAA"
  else if k = "ROBINHOOD_PUBLIC_KEY" then some "pk"
  else none

/-- A stand-in signer mapping the message to its character codes. -/
def fixtureSign : List Nat → String → List Nat := fun _ msg => msg.data.map Char.toNat

/-- A stand-in signer always producing a 64-byte signature. -/
def fixtureSign64 : List Nat → String → List Nat := fun _ _ => List.replicate 64 0

/-- Order-listing params with only the `symbol` filter set. -/
def fixtureOrderParams : GetCryptoOrderParams :=
  { created_at_start := none, created_at_end := none, symbol := some "BTC-USD",
    id := none, side := none, state := none, type_ := none, updated_at_start := none,
    updated_at_end := none, cursor := none, limit := none }

def fixtureAccountInfo : AccountInfo :=
  { account_number := "acct", status := "active", buying_power := "10",
    buying_power_currency := "USD" }

def fixtureCreateParams : CreateCyptoOrderParams :=
  { symbol := "BTC-USD", client_order_id := "cid", side := "buy", order_type := "market",
    market_order_config := some { asset_quantity := 1 }, limit_order_config := none,
    stop_loss_order_config := none, stop_limit_order_config := none }

def fixtureTradingPair : TradingPairs :=
  { asset_code := "BTC", quote_code := "USD", quote_increment := "0.01",
    asset_increment := "1", max_order_size := "100", status := "tradable",
    symbol := "BTC-USD" }

/-- Transport returning the spec's cancel confirmation body. -/
def fixtureCancelTransport : EndpointRequest → Except String String :=
  fun _ => Except.ok "\"Cancel request has been submitted for order abc123\""

/-- Transport failing with a fixed error. -/
def fixtureFailTransport : EndpointRequest → Except String String :=
  fun _ => Except.error "connection reset"

/-- Transport succeeding with a fixed body. -/
def fixtureOkTransport : EndpointRequest → Except String String :=
  fun _ => Except.ok "{}"

/-- Decoder failing with a fixed error. -/
def fixtureDecodeFail : String → Except String EstimatedPriceResponse :=
  fun _ => Except.error "missing field"

/-- Decoder producing the fixture account. -/
def fixtureAccountDec : String → Except String AccountInfo :=
  fun _ => Except.ok fixtureAccountInfo

/-- Order-response decoder failing with a fixed error. -/
def fixtureCreateDec : String → Except String CreateCryptoOrderResponse :=
  fun _ => Except.error "bad order shape"

/-- A fixed stand-in for serde_json serialization. -/
def fixtureSerialize : CreateCyptoOrderParams → String := fun _ => "{}"

theorem digitsRevAux_lt_ten : ∀ fuel n d, d ∈ digitsRevAux fuel n → d < 10
  | 0, _, _, h => by simp [digitsRevAux] at h
  | fuel + 1, n, d, h => by
    by_cases hn : n = 0
    · simp [digitsRevAux, hn] at h
    · simp only [digitsRevAux, if_neg hn, List.mem_cons] at h
      rcases h with h | h
      · omega
      · exact digitsRevAux_lt_ten fuel (n / 10) d h

theorem ofRev_digitsRevAux : ∀ fuel n, n ≤ fuel → ofRev (digitsRevAux fuel n) = n
  | 0, n, h => by
    have : n = 0 := Nat.le_zero.mp h
    simp [digitsRevAux, ofRev, this]
  | fuel + 1, n, h => by
    by_cases hn : n = 0
    · simp [digitsRevAux, hn, ofRev]
    · have hlt : n / 10 ≤ fuel := by
        have : n / 10 < n := Nat.div_lt_self (Nat.pos_of_ne_zero hn) (by omega)
        omega
      simp only [digitsRevAux, if_neg hn, ofRev,
        ofRev_digitsRevAux fuel (n / 10) hlt]
      omega

theorem decDigitChar_toNat : ∀ d, d < 10 → (decDigitChar d).toNat - 48 = d := by decide

theorem foldr_decode_eq_ofRev (l : List Nat) (hl : ∀ d ∈ l, d < 10) :
    List.foldr (fun d acc => 10 * acc + ((decDigitChar d).toNat - 48)) 0 l = ofRev l := by
  induction l with
  | nil => rfl
  | cons d ds ih =>
    have hd : d < 10 := hl d (List.mem_cons_self d ds)
    have hds : ∀ x ∈ ds, x < 10 := fun x hx => hl x (List.mem_cons_of_mem d hx)
    simp only [List.foldr, ofRev, ih hds, decDigitChar_toNat d hd]
    omega

theorem natFromDigits_decimalString (n : Nat) : natFromDigits (decimalString n) = n := by
  by_cases hn : n = 0
  · subst hn; decide
  · have hdig : ∀ d ∈ digitsRevAux (n + 1) n, d < 10 := fun d h =>
      digitsRevAux_lt_ten (n + 1) n d h
    simp only [decimalString, if_neg hn, natFromDigits]
    show List.foldl _ 0 ((digitsRevAux (n + 1) n).reverse.map decDigitChar) = n
    rw [List.foldl_map, List.foldl_reverse]
    have := foldr_decode_eq_ofRev (digitsRevAux (n + 1) n) hdig
    simp only [List.foldr] at this ⊢
    rw [this]
    exact ofRev_digitsRevAux (n + 1) n (by omega)

theorem decimalString_injective : Function.Injective decimalString := by
  intro m n h
  have := natFromDigits_decimalString m
  rw [h, natFromDigits_decimalString] at this
  omega

theorem b64Val_b64Char : ∀ v, v < 64 → b64Val (b64Char v) = some v := by decide

theorem b64Char_ne_pad : ∀ v, v < 64 → b64Char v ≠ '=' := by decide

theorem b64_roundtrip :
    ∀ bs : List Nat, (∀ x ∈ bs, x < 256) → b64DecodeList (b64EncodeList bs) = some bs
  | [], _ => rfl
  | [a], h => by
    have ha : a < 256 := h a (by simp)
    have h1 := b64Val_b64Char (a / 4) (by omega)
    have h2 := b64Val_b64Char (a % 4 * 16) (by omega)
    have hmod : a % 4 * 16 % 16 = 0 := by omega
    have e1 : a / 4 * 4 + a % 4 * 16 / 16 = a := by omega
    simp [b64EncodeList, b64DecodeList, h1, h2, hmod, e1]
    all_goals omega
  | [a, b], h => by
    have ha : a < 256 := h a (by simp)
    have hb : b < 256 := h b (by simp)
    have h1 := b64Val_b64Char (a / 4) (by omega)
    have h2 := b64Val_b64Char (a % 4 * 16 + b / 16) (by omega)
    have h3 := b64Val_b64Char (b % 16 * 4) (by omega)
    have h3ne := b64Char_ne_pad (b % 16 * 4) (by omega)
    have hmod : b % 16 * 4 % 4 = 0 := by omega
    have e1 : a / 4 * 4 + (a % 4 * 16 + b / 16) / 16 = a := by omega
    have e2 : (a % 4 * 16 + b / 16) % 16 * 16 + b % 16 * 4 / 4 = b := by omega
    simp [b64EncodeList, b64DecodeList, h1, h2, h3, h3ne, hmod, e1, e2]
    all_goals omega
  | [a, b, c], h => by
    have ha : a < 256 := h a (by simp)
    have hb : b < 256 := h b (by simp)
    have hc : c < 256 := h c (by simp)
    have h1 := b64Val_b64Char (a / 4) (by omega)
    have h2 := b64Val_b64Char (a % 4 * 16 + b / 16) (by omega)
    have h3 := b64Val_b64Char (b % 16 * 4 + c / 64) (by omega)
    have h4 := b64Val_b64Char (c % 64) (by omega)
    have h3ne := b64Char_ne_pad (b % 16 * 4 + c / 64) (by omega)
    have h4ne := b64Char_ne_pad (c % 64) (by omega)
    have e1 : a / 4 * 4 + (a % 4 * 16 + b / 16) / 16 = a := by omega
    have e2 : (a % 4 * 16 + b / 16) % 16 * 16 + (b % 16 * 4 + c / 64) / 4 = b := by omega
    have e3 : (b % 16 * 4 + c / 64) % 4 * 64 + c % 64 = c := by omega
    simp [b64EncodeList, b64DecodeList, h1, h2, h3, h4, h3ne, h4ne, e1, e2, e3]
  | a :: b :: c :: r :: rest, h => by
    have ha : a < 256 := h a (by simp)
    have hb : b < 256 := h b (by simp)
    have hc : c < 256 := h c (by simp)
    have hrest : ∀ x ∈ r :: rest, x < 256 := fun x hx => h x (by simp [hx])
    have h1 := b64Val_b64Char (a / 4) (by omega)
    have h2 := b64Val_b64Char (a % 4 * 16 + b / 16) (by omega)
    have h3 := b64Val_b64Char (b % 16 * 4 + c / 64) (by omega)
    have h4 := b64Val_b64Char (c % 64) (by omega)
    have h3ne := b64Char_ne_pad (b % 16 * 4 + c / 64) (by omega)
    have h4ne := b64Char_ne_pad (c % 64) (by omega)
    have ih := b64_roundtrip (r :: rest) hrest
    have e1 : a / 4 * 4 + (a % 4 * 16 + b / 16) / 16 = a := by omega
    have e2 : (a % 4 * 16 + b / 16) % 16 * 16 + (b % 16 * 4 + c / 64) / 4 = b := by omega
    have e3 : (b % 16 * 4 + c / 64) % 4 * 64 + c % 64 = c := by omega
    simp [b64EncodeList, b64DecodeList, h1, h2, h3, h4, h3ne, h4ne, ih, e1, e2, e3]

theorem b64Encode_injOn {bs1 bs2 : List Nat} (h1 : ∀ x ∈ bs1, x < 256)
    (h2 : ∀ x ∈ bs2, x < 256) (h : b64Encode bs1 = b64Encode bs2) : bs1 = bs2 := by
  have hdata : b64EncodeList bs1 = b64EncodeList bs2 := congrArg String.data h
  have := b64_roundtrip bs1 h1
  rw [hdata, b64_roundtrip bs2 h2] at this
  exact (Option.some.injEq _ _ ▸ this).symm

theorem b64EncodeList_length :
    ∀ bs : List Nat, (b64EncodeList bs).length = 4 * ((bs.length + 2) / 3)
  | [] => rfl
  | [_] => by simp [b64EncodeList]
  | [_, _] => by simp [b64EncodeList]
  | _ :: _ :: _ :: rest => by
    simp only [b64EncodeList, List.length_cons, b64EncodeList_length rest]
    omega

/-! ## Helper lemmas: message freshness, trimming, query building, pipeline -/

theorem signing_message_ts_inj (api path method body : String) {t1 t2 : Nat}
    (h : signing_message api t1 path method body = signing_message api t2 path method body) :
    t1 = t2 := by
  have hd := congrArg String.data h
  simp only [signing_message, String.data_append, List.append_assoc] at hd
  have h1 := List.append_cancel_left hd
  have h2 := List.append_cancel_right h1
  exact decimalString_injective (String.ext h2)

theorem head_dropWhile_false {p : Char → Bool} :
    ∀ (l : List Char) (a : Char), (List.dropWhile p l).head? = some a → p a = false := by
  intro l
  induction l with
  | nil => intro a h; simp [List.dropWhile] at h
  | cons c cs ih =>
    intro a h
    rw [List.dropWhile_cons] at h
    by_cases hc : p c
    · rw [if_pos hc] at h; exact ih a h
    · rw [if_neg hc] at h
      simp only [List.head?_cons, Option.some.injEq] at h
      subst h
      exact Bool.of_not_eq_true hc

theorem trim_head_not_quote (s : String) (a : Char)
    (h : (trimQuoteMatches s).data.head? = some a) : a ≠ '"' := by
  have h' : (List.rdropWhile isQuote (List.dropWhile isQuote s.data)).head? = some a := h
  obtain ⟨t, ht⟩ := List.rdropWhile_prefix (l := List.dropWhile isQuote s.data) (p := isQuote)
  cases hr : List.rdropWhile isQuote (List.dropWhile isQuote s.data) with
  | nil => rw [hr] at h'; simp at h'
  | cons x xs =>
    rw [hr] at h' ht
    simp only [List.head?_cons, Option.some.injEq] at h'
    subst h'
    have hhead : (List.dropWhile isQuote s.data).head? = some x := by
      rw [← ht]; rfl
    have hfalse := head_dropWhile_false (p := isQuote) s.data x hhead
    simpa [isQuote] using hfalse

theorem trim_last_not_quote (s : String) (a : Char)
    (h : (trimQuoteMatches s).data.getLast? = some a) : a ≠ '"' := by
  have h' : (List.rdropWhile isQuote (List.dropWhile isQuote s.data)).getLast? = some a := h
  cases hr : List.rdropWhile isQuote (List.dropWhile isQuote s.data) with
  | nil => rw [hr] at h'; simp at h'
  | cons x xs =>
    have hne : List.rdropWhile isQuote (List.dropWhile isQuote s.data) ≠ [] := by
      rw [hr]; exact List.cons_ne_nil x xs
    have hlast := List.rdropWhile_last_not (l := List.dropWhile isQuote s.data)
      (p := isQuote) hne
    rw [List.getLast?_eq_getLast _ hne] at h'
    simp only [Option.some.injEq] at h'
    rw [h'] at hlast
    simpa [isQuote] using hlast

theorem trim_wrap (s : String) :
    trimQuoteMatches ("\"" ++ s ++ "\"") = trimQuoteMatches s := by
  have hq : isQuote '"' = true := rfl
  have hdata : ("\"" ++ s ++ "\"").data = '"' :: (s.data ++ ['"']) := by
    simp [String.data_append]
  show String.mk (List.rdropWhile isQuote (List.dropWhile isQuote ("\"" ++ s ++ "\"").data)) = _
  rw [hdata, List.dropWhile_cons, if_pos hq]
  congr 1
  rcases hsplit : List.dropWhile isQuote s.data with _ | ⟨x, xs⟩
  · have h2 : List.dropWhile isQuote (s.data ++ ['"']) = [] := by
      apply List.dropWhile_eq_nil_iff.mpr
      intro c hc
      rcases List.mem_append.mp hc with hc | hc
      · exact List.dropWhile_eq_nil_iff.mp hsplit c hc
      · simp only [List.mem_singleton] at hc; subst hc; exact hq
    rw [h2]
  · have h2 : List.dropWhile isQuote (s.data ++ ['"']) = List.dropWhile isQuote s.data ++ ['"'] := by
      rw [List.dropWhile_append]
      simp [hsplit]
    rw [h2, List.rdropWhile_concat_pos _ _ _ hq, hsplit]

theorem foldl_query_enumFrom (name : String) :
    ∀ (l : List String) (acc : String) (n : Nat),
      (List.enumFrom (n + 1) l).foldl
        (fun acc pr => (if pr.1 > 0 then acc ++ "&" else acc) ++ name ++ "=" ++ pr.2) acc
        = acc ++ ampPairs name l := by
  intro l
  induction l with
  | nil =>
    intro acc n
    apply String.ext
    simp [ampPairs, List.enumFrom, String.data_append]
  | cons s rest ih =>
    intro acc n
    show (List.enumFrom (n + 2) rest).foldl _ ((if n + 1 > 0 then acc ++ "&" else acc) ++ name ++ "=" ++ s) = _
    rw [if_pos (Nat.succ_pos n), ih (acc ++ "&" ++ name ++ "=" ++ s) (n + 1)]
    apply String.ext
    simp [ampPairs, String.data_append, List.append_assoc]

theorem ampJoin_map_cons (name : String) :
    ∀ (rest : List String) (s : String),
      ampJoin ((s :: rest).map fun x => name ++ "=" ++ x) = name ++ "=" ++ s ++ ampPairs name rest := by
  intro rest
  induction rest with
  | nil =>
    intro s
    apply String.ext
    simp [ampJoin, ampPairs, String.data_append]
  | cons y ys ih =>
    intro s
    show ampJoin ((name ++ "=" ++ s) :: (name ++ "=" ++ y) :: ys.map _) = _
    rw [ampJoin, ← List.map_cons (fun x => name ++ "=" ++ x) y ys, ih y]
    apply String.ext
    simp [ampPairs, String.data_append, List.append_assoc]

theorem buildSymbolQueryPath_cons (base name s : String) (rest : List String) :
    buildSymbolQueryPath base name (s :: rest)
      = base ++ "?" ++ ampJoin ((s :: rest).map fun x => name ++ "=" ++ x) := by
  show (List.enum (s :: rest)).foldl _ (base ++ "?") = _
  show (List.enumFrom 0 (s :: rest)).foldl _ (base ++ "?") = _
  show (List.enumFrom 1 rest).foldl _ ((if 0 > 0 then (base ++ "?") ++ "&" else base ++ "?") ++ name ++ "=" ++ s) = _
  rw [if_neg (by omega), foldl_query_enumFrom name rest _ 0, ampJoin_map_cons name rest s]
  apply String.ext
  simp [String.data_append, List.append_assoc]

theorem requestJson_ok_iff {e a : Type} (resp : Except e String) (dec : String → Except e a)
    (v : a) :
    requestJson resp dec = Except.ok v ↔ ∃ body, resp = Except.ok body ∧ dec body = Except.ok v := by
  cases resp with
  | error err => simp [requestJson]
  | ok body =>
    cases hd : dec body with
    | error err => simp [requestJson, hd]
    | ok w => simp [requestJson, hd]

/-! ## Claim theorems -/

/-- Claim C1, counterexample: at the tuple the spec fixes
(`api_key="k1"`, `timestamp=1700000000`, `path="/x"`, `method="GET"`,
`body=""`), the message the code builds is not the byte sequence the spec
lists — the spec's string `"k117000000000/xGET"` carries an extra `'0'`. -/
theorem c1_spec_example_mismatch :
    signing_message "k1" 1700000000 "/x" "GET" "" ≠ "k117000000000/xGET" := by decide

/-- Claim C1, amended: the message handed to the signer is the exact
concatenation `api_key ++ timestamp ++ path ++ method ++ body` with no
separators, and at the spec's example tuple the bytes are
`"k11700000000/xGET"`. -/
theorem c1_message_exact_concatenation (sign : List Nat → String → List Nat)
    (rh : Robinhood) (ts : Nat) (path method body : String) (sk : List Nat)
    (hk : b64Decode rh.signing_priv_b64 = some sk) (hlen : sk.length = 32) :
    create_signature sign rh ts path method body =
      some (b64Encode (sign sk (rh.api_key ++ decimalString ts ++ path ++ method ++ body)),
        decimalString ts)
    ∧ signing_message "k1" 1700000000 "/x" "GET" "" = "k11700000000/xGET" := by
  refine ⟨?_, by decide⟩
  simp [create_signature, hk, hlen, signing_message]

theorem c1_message_exact_concatenation_witness :
    create_signature fixtureSign fixtureRobinhood 5 "/x" "GET" "" =
      some (b64Encode (fixtureSign (List.replicate 32 0)
        (fixtureRobinhood.api_key ++ decimalString 5 ++ "/x" ++ "GET" ++ "")),
        decimalString 5) :=
  (c1_message_exact_concatenation fixtureSign fixtureRobinhood 5 "/x" "GET" ""
    (List.replicate 32 0) (by decide) (by decide)).1

/-- Claim C2: `get_crypto_orders` asks for headers on the bare orders path
with empty body, but the issued request's URL additionally carries the
filters appended by reqwest's `query`; with the symbol filter set the signed
path is not the sent path, contradicting the claim. -/
theorem c2_orders_query_not_signed :
    (get_crypto_orders_request fixtureOrderParams).signedPath = ordersBasePath
    ∧ (get_crypto_orders_request fixtureOrderParams).sentPath =
        "/api/v1/crypto/trading/orders/?symbol=BTC-USD"
    ∧ (get_crypto_orders_request fixtureOrderParams).signedPath ≠
        (get_crypto_orders_request fixtureOrderParams).sentPath :=
  ⟨rfl, by decide, by decide⟩

/-- Claim C3, counterexample: construction accepts a stored key whose base64
decodes to only 3 bytes, so the exactly-32-bytes check is not enforced at
construction time. -/
theorem c3_wrong_length_key_accepted_at_construction :
    from_env fixtureEnv = some fixtureBadKeyRobinhood
    ∧ b64Decode fixtureBadKeyRobinhood.signing_priv_b64 = some [0, 0, 0] :=
  ⟨rfl, by decide⟩

/-- Claim C3, amended: construction fails fatally exactly when one of the
three required values is absent — a missing value makes `from_env` fail, and
with all three present it succeeds with precisely those stored values, with no
key validation performed; the key-length invariant is enforced at signature
time instead — `create_signature` fails (panics) on undecodable base64 or on a
decoded length other than 32 bytes, never truncating or padding. -/
theorem c3_construction_and_key_length (env : String → Option String) (rh : Robinhood)
    (sign : List Nat → String → List Nat) (ts : Nat) (path method body : String) :
    ((env "ROBINHOOD_API_KEY" = none ∨ env "ROBINHOOD_SIGNING_PRIVATE_B64" = none ∨
        env "ROBINHOOD_PUBLIC_KEY" = none) → from_env env = none)
    ∧ (∀ a k p, env "ROBINHOOD_API_KEY" = some a →
        env "ROBINHOOD_SIGNING_PRIVATE_B64" = some k →
        env "ROBINHOOD_PUBLIC_KEY" = some p →
        from_env env =
          some { api_key := a, signing_priv_b64 := k, signing_public_key := p })
    ∧ (b64Decode rh.signing_priv_b64 = none →
        create_signature sign rh ts path method body = none)
    ∧ (∀ sk, b64Decode rh.signing_priv_b64 = some sk → sk.length ≠ 32 →
        create_signature sign rh ts path method body = none) := by
  refine ⟨?_, ?_, ?_, ?_⟩
  · intro h
    rcases h with h | h | h <;>
      cases hA : env "ROBINHOOD_API_KEY" <;>
      cases hB : env "ROBINHOOD_SIGNING_PRIVATE_B64" <;>
      cases hC : env "ROBINHOOD_PUBLIC_KEY" <;>
      simp_all [from_env]
  · intro a k p hA hB hC
    simp [from_env, hA, hB, hC]
  · intro h
    simp [create_signature, h]
  · intro sk hsk hlen
    simp [create_signature, hsk, hlen]

theorem c3_construction_and_key_length_witness :
    from_env (fun _ => none) = none
    ∧ from_env fixtureEnv =
        some { api_key := "k1", signing_priv_b64 := "AAAA", signing_public_key := "pk" }
    ∧ create_signature fixtureSign fixtureBadKeyRobinhood 5 "/x" "GET" "" = none :=
  ⟨(c3_construction_and_key_length (fun _ => none) fixtureBadKeyRobinhood fixtureSign
      5 "/x" "GET" "").1 (Or.inl rfl),
   (c3_construction_and_key_length fixtureEnv fixtureBadKeyRobinhood fixtureSign
      5 "/x" "GET" "").2.1 "k1" "AAAA" "pk" (by decide) (by decide) (by decide),
   (c3_construction_and_key_length (fun _ => none) fixtureBadKeyRobinhood fixtureSign
      5 "/x" "GET" "").2.2.2 [0, 0, 0] (by decide) (by decide)⟩

/-- Claim C4: `auth_headers` returns exactly three headers — `x-api-key` with
the stored key string unchanged, `x-timestamp` with the decimal string of the
Unix-seconds timestamp, `x-signature` with the standard-alphabet padded
base64 of the signature bytes over the constructed message (for the 64-byte
Ed25519 signature the encoding has the padded length 88). -/
theorem c4_auth_headers_exact (sign : List Nat → String → List Nat) (rh : Robinhood)
    (ts : Nat) (path method body : String) (sk : List Nat)
    (hk : b64Decode rh.signing_priv_b64 = some sk) (hlen : sk.length = 32)
    (hsig : (sign sk (signing_message rh.api_key ts path method body)).length = 64) :
    auth_headers sign rh ts path method body =
      some [("x-api-key", rh.api_key), ("x-timestamp", decimalString ts),
        ("x-signature",
          b64Encode (sign sk (signing_message rh.api_key ts path method body)))]
    ∧ (b64Encode (sign sk (signing_message rh.api_key ts path method body))).length = 88 := by
  constructor
  · simp [auth_headers, create_signature, hk, hlen]
  · have h0 : (b64Encode (sign sk (signing_message rh.api_key ts path method body))).length
        = (b64EncodeList (sign sk (signing_message rh.api_key ts path method body))).length :=
      rfl
    rw [h0, b64EncodeList_length, hsig]

theorem c4_auth_headers_exact_witness :
    auth_headers fixtureSign64 fixtureRobinhood 5 "/x" "GET" "" =
      some [("x-api-key", fixtureRobinhood.api_key), ("x-timestamp", decimalString 5),
        ("x-signature", b64Encode (fixtureSign64 (List.replicate 32 0)
          (signing_message fixtureRobinhood.api_key 5 "/x" "GET" "")))] :=
  (c4_auth_headers_exact fixtureSign64 fixtureRobinhood 5 "/x" "GET" ""
    (List.replicate 32 0) (by decide) (by decide) (by decide)).1

/-- Claim C5: the signer is deterministic and stateless — in this pure
embedding two calls with the same credential, clock value and descriptor are
the same expression, hence equal — and re-signing one second later gives a
different `x-timestamp` and, whenever the external Ed25519 primitive
distinguishes the two (provably distinct) messages, a different
`x-signature`, both produced by the same message-construction rule. -/
theorem c5_determinism_and_freshness (sign : List Nat → String → List Nat)
    (rh : Robinhood) (ts : Nat) (path method body : String) (sk : List Nat)
    (hk : b64Decode rh.signing_priv_b64 = some sk) (hlen : sk.length = 32)
    (hb1 : ∀ x ∈ sign sk (signing_message rh.api_key ts path method body), x < 256)
    (hb2 : ∀ x ∈ sign sk (signing_message rh.api_key (ts + 1) path method body), x < 256)
    (hinj : signing_message rh.api_key ts path method body ≠
        signing_message rh.api_key (ts + 1) path method body →
      sign sk (signing_message rh.api_key ts path method body) ≠
        sign sk (signing_message rh.api_key (ts + 1) path method body)) :
    auth_headers sign rh ts path method body = auth_headers sign rh ts path method body
    ∧ (∀ s1 t1 s2 t2, create_signature sign rh ts path method body = some (s1, t1) →
        create_signature sign rh (ts + 1) path method body = some (s2, t2) →
        t1 ≠ t2 ∧ s1 ≠ s2
        ∧ s1 = b64Encode (sign sk (signing_message rh.api_key ts path method body))
        ∧ s2 = b64Encode (sign sk (signing_message rh.api_key (ts + 1) path method body))) := by
  have hmsg : signing_message rh.api_key ts path method body ≠
      signing_message rh.api_key (ts + 1) path method body := by
    intro h
    have := signing_message_ts_inj rh.api_key path method body h
    omega
  refine ⟨rfl, ?_⟩
  intro s1 t1 s2 t2 h1 h2
  have e1 : create_signature sign rh ts path method body =
      some (b64Encode (sign sk (signing_message rh.api_key ts path method body)),
        decimalString ts) := by
    simp [create_signature, hk, hlen]
  have e2 : create_signature sign rh (ts + 1) path method body =
      some (b64Encode (sign sk (signing_message rh.api_key (ts + 1) path method body)),
        decimalString (ts + 1)) := by
    simp [create_signature, hk, hlen]
  rw [e1] at h1
  rw [e2] at h2
  simp only [Option.some.injEq, Prod.mk.injEq] at h1 h2
  obtain ⟨hs1, ht1⟩ := h1
  obtain ⟨hs2, ht2⟩ := h2
  subst hs1; subst ht1; subst hs2; subst ht2
  refine ⟨?_, ?_, rfl, rfl⟩
  · intro h
    have := decimalString_injective h
    omega
  · intro h
    exact hinj hmsg (b64Encode_injOn hb1 hb2 h)

theorem c5_determinism_and_freshness_witness :
    decimalString 5 ≠ decimalString (5 + 1)
    ∧ b64Encode (fixtureSign (List.replicate 32 0)
        (signing_message fixtureRobinhood.api_key 5 "/x" "GET" "")) ≠
      b64Encode (fixtureSign (List.replicate 32 0)
        (signing_message fixtureRobinhood.api_key (5 + 1) "/x" "GET" "")) := by
  have h := (c5_determinism_and_freshness fixtureSign fixtureRobinhood 5 "/x" "GET" ""
    (List.replicate 32 0) (by decide) (by decide) (by decide) (by decide)
    (fun _ => by decide)).2
    (b64Encode (fixtureSign (List.replicate 32 0)
      (signing_message fixtureRobinhood.api_key 5 "/x" "GET" "")))
    (decimalString 5)
    (b64Encode (fixtureSign (List.replicate 32 0)
      (signing_message fixtureRobinhood.api_key (5 + 1) "/x" "GET" "")))
    (decimalString (5 + 1)) (by decide) (by decide)
  exact ⟨h.1, h.2.1⟩

/-- Claim C6: the three list-endpoint path builders leave the base path (which
contains no `'?'`) untouched for an empty filter vector and otherwise append
`'?'` followed by one `name=value` pair per element joined by `'&'`, in
caller-supplied order. -/
theorem c6_query_param_builders (symbols : List String) :
    (symbols = [] →
      get_best_price_path symbols = bestBidAskBasePath
      ∧ get_crypto_trading_pairs_path symbols = tradingPairsBasePath
      ∧ get_crypto_holdings_path symbols = holdingsBasePath
      ∧ '?' ∉ (get_best_price_path symbols).data
      ∧ '?' ∉ (get_crypto_trading_pairs_path symbols).data
      ∧ '?' ∉ (get_crypto_holdings_path symbols).data)
    ∧ (symbols ≠ [] →
      get_best_price_path symbols
        = bestBidAskBasePath ++ "?" ++ ampJoin (symbols.map fun s => "symbol=" ++ s)
      ∧ get_crypto_trading_pairs_path symbols
        = tradingPairsBasePath ++ "?" ++ ampJoin (symbols.map fun s => "symbol=" ++ s)
      ∧ get_crypto_holdings_path symbols
        = holdingsBasePath ++ "?" ++ ampJoin (symbols.map fun s => "asset_code=" ++ s)) := by
  constructor
  · rintro rfl
    exact ⟨rfl, rfl, rfl, by decide, by decide, by decide⟩
  · intro hne
    obtain ⟨s, rest, rfl⟩ : ∃ s rest, symbols = s :: rest := by
      cases symbols with
      | nil => exact absurd rfl hne
      | cons s rest => exact ⟨s, rest, rfl⟩
    refine ⟨?_, ?_, ?_⟩
    · show buildSymbolQueryPath bestBidAskBasePath "symbol" (s :: rest) = _
      rw [buildSymbolQueryPath_cons]
      rfl
    · show buildSymbolQueryPath tradingPairsBasePath "symbol" (s :: rest) = _
      rw [buildSymbolQueryPath_cons]
      rfl
    · show buildSymbolQueryPath holdingsBasePath "asset_code" (s :: rest) = _
      rw [buildSymbolQueryPath_cons]
      rfl

theorem c6_query_param_builders_witness :
    get_best_price_path [] = bestBidAskBasePath
    ∧ get_crypto_holdings_path ["BTC", "ETH"]
      = holdingsBasePath ++ "?" ++ ampJoin (["BTC", "ETH"].map fun s => "asset_code=" ++ s) :=
  ⟨((c6_query_param_builders []).1 rfl).1,
   ((c6_query_param_builders ["BTC", "ETH"]).2 (by decide)).2.2⟩

/-- Claim C7: `cancel_crypto_order` issues a bodyless POST to the cancel path
for the given id (the signed triple matching it) and returns the transport
body with all enclosing `'"'` characters trimmed; the spec's example body
unquotes to the expected plain string. -/
theorem c7_cancel_order {e : Type} (transport : EndpointRequest → Except e String)
    (id : String) :
    (cancel_crypto_order_request id).sentMethod = "POST"
    ∧ (cancel_crypto_order_request id).sentBody = none
    ∧ (cancel_crypto_order_request id).sentPath
      = "/api/v1/crypto/trading/orders/" ++ id ++ "/cancel/"
    ∧ (cancel_crypto_order_request id).signedPath = (cancel_crypto_order_request id).sentPath
    ∧ (cancel_crypto_order_request id).signedBody = ""
    ∧ (∀ body, transport (cancel_crypto_order_request id) = Except.ok body →
        cancel_crypto_order transport id = Except.ok (trimQuoteMatches body))
    ∧ trimQuoteMatches "\"Cancel request has been submitted for order abc123\""
      = "Cancel request has been submitted for order abc123" := by
  refine ⟨rfl, rfl, rfl, rfl, rfl, ?_, by decide⟩
  intro body h
  simp [cancel_crypto_order, h]

theorem c7_cancel_order_witness :
    cancel_crypto_order fixtureCancelTransport "abc123" =
      Except.ok "Cancel request has been submitted for order abc123" := by
  have h := (c7_cancel_order fixtureCancelTransport "abc123").2.2.2.2.2.1
    "\"Cancel request has been submitted for order abc123\"" rfl
  exact h.trans (congrArg Except.ok (by decide))

/-- Claim C8: for the cited operations, a transport failure is returned to the
caller unchanged, a decode failure is returned unchanged, and a success value
exists exactly when the transport succeeded and the body decoded completely —
there is no retry, swallowing, or partial success in the pipeline. -/
theorem c8_failure_propagation {e : Type} (transport : EndpointRequest → Except e String)
    (decA : String → Except e AccountInfo)
    (decE : String → Except e EstimatedPriceResponse)
    (decC : String → Except e CreateCryptoOrderResponse)
    (serialize : CreateCyptoOrderParams → String)
    (symbol side quantity : String) (param : CreateCyptoOrderParams) :
    ((∀ err, transport get_account_info_request = Except.error err →
        get_account_info transport decA = Except.error err)
      ∧ (∀ body err, transport get_account_info_request = Except.ok body →
          decA body = Except.error err →
          get_account_info transport decA = Except.error err)
      ∧ (∀ v, get_account_info transport decA = Except.ok v ↔
          ∃ body, transport get_account_info_request = Except.ok body
            ∧ decA body = Except.ok v))
    ∧ ((∀ err, transport (get_estimated_price_request symbol side quantity)
          = Except.error err →
        get_estimated_price transport decE symbol side quantity = Except.error err)
      ∧ (∀ body err, transport (get_estimated_price_request symbol side quantity)
          = Except.ok body → decE body = Except.error err →
          get_estimated_price transport decE symbol side quantity = Except.error err)
      ∧ (∀ v, get_estimated_price transport decE symbol side quantity = Except.ok v ↔
          ∃ body, transport (get_estimated_price_request symbol side quantity)
            = Except.ok body ∧ decE body = Except.ok v))
    ∧ ((∀ err, transport (create_crypto_order_request serialize param)
          = Except.error err →
        create_crypto_order transport serialize decC param = Except.error err)
      ∧ (∀ body err, transport (create_crypto_order_request serialize param)
          = Except.ok body → decC body = Except.error err →
          create_crypto_order transport serialize decC param = Except.error err)
      ∧ (∀ v, create_crypto_order transport serialize decC param = Except.ok v ↔
          ∃ body, transport (create_crypto_order_request serialize param)
            = Except.ok body ∧ decC body = Except.ok v)) := by
  refine ⟨⟨?_, ?_, ?_⟩, ⟨?_, ?_, ?_⟩, ⟨?_, ?_, ?_⟩⟩
  · intro err h; simp [get_account_info, requestJson, h]
  · intro body err h1 h2; simp [get_account_info, requestJson, h1, h2]
  · intro v; exact requestJson_ok_iff (transport get_account_info_request) decA v
  · intro err h; simp [get_estimated_price, requestJson, h]
  · intro body err h1 h2; simp [get_estimated_price, requestJson, h1, h2]
  · intro v
    exact requestJson_ok_iff (transport (get_estimated_price_request symbol side quantity))
      decE v
  · intro err h; simp [create_crypto_order, requestJson, h]
  · intro body err h1 h2; simp [create_crypto_order, requestJson, h1, h2]
  · intro v
    exact requestJson_ok_iff (transport (create_crypto_order_request serialize param)) decC v

theorem c8_failure_propagation_witness :
    get_account_info fixtureFailTransport fixtureAccountDec = Except.error "connection reset"
    ∧ get_estimated_price fixtureOkTransport fixtureDecodeFail "BTC-USD" "bid" "1"
      = Except.error "missing field"
    ∧ get_account_info fixtureOkTransport fixtureAccountDec = Except.ok fixtureAccountInfo := by
  have hfail := c8_failure_propagation fixtureFailTransport fixtureAccountDec
    fixtureDecodeFail fixtureCreateDec fixtureSerialize "BTC-USD" "bid" "1"
    fixtureCreateParams
  have hok := c8_failure_propagation fixtureOkTransport fixtureAccountDec
    fixtureDecodeFail fixtureCreateDec fixtureSerialize "BTC-USD" "bid" "1"
    fixtureCreateParams
  refine ⟨hfail.1.1 "connection reset" rfl, ?_, ?_⟩
  · exact hok.2.1.2.1 "{}" "missing field" rfl rfl
  · exact (hok.1.2.2 fixtureAccountInfo).mpr ⟨"{}", rfl, rfl⟩

/-- Claim C9: when both the `max_order_size` and `asset_increment` strings
parse, `check_valid_trade` returns `true` exactly when
`asset_increment ≤ quantity ≤ max_order_size` — the lower bound really is the
`asset_increment` field — and when either string fails to parse the call
panics (`none`) instead of returning a value. -/
theorem c9_check_valid_trade_spec (fromStr : String → Option Rat) (p : TradingPairs)
    (q : Rat) :
    (∀ maxO minO, fromStr p.max_order_size = some maxO →
      fromStr p.asset_increment = some minO →
      (check_valid_trade fromStr p q = some true ↔ (minO ≤ q ∧ q ≤ maxO)))
    ∧ ((fromStr p.max_order_size = none ∨ fromStr p.asset_increment = none) →
      check_valid_trade fromStr p q = none) := by
  constructor
  · intro maxO minO hmax hmin
    simp only [check_valid_trade, hmax, hmin, Option.some.injEq, Bool.and_eq_true,
      decide_eq_true_eq]
    tauto
  · intro h
    rcases h with h | h
    · simp [check_valid_trade, h]
    · cases hmax : fromStr p.max_order_size <;> simp [check_valid_trade, hmax, h]

theorem c9_check_valid_trade_spec_witness :
    check_valid_trade decParse fixtureTradingPair 2 = some true
    ∧ check_valid_trade (fun _ => none) fixtureTradingPair 2 = none :=
  ⟨((c9_check_valid_trade_spec decParse fixtureTradingPair 2).1 100 1
      (by decide) (by decide)).mpr (by decide),
   (c9_check_valid_trade_spec (fun _ => none) fixtureTradingPair 2).2 (Or.inl rfl)⟩

/-- Claim C10: the cancel-response unquoting removes every leading and every
trailing `'"'`, not exactly one enclosing pair: the result never begins or
ends with `'"'`, wrapping a body in one more quote pair changes nothing, and
a doubly-quoted body loses all four quotes. -/
theorem c10_trim_strips_all_quotes (s : String) :
    (∀ a, (trimQuoteMatches s).data.head? = some a → a ≠ '"')
    ∧ (∀ a, (trimQuoteMatches s).data.getLast? = some a → a ≠ '"')
    ∧ trimQuoteMatches ("\"" ++ s ++ "\"") = trimQuoteMatches s
    ∧ trimQuoteMatches "\"\"abc\"\"" = "abc" :=
  ⟨trim_head_not_quote s, trim_last_not_quote s, trim_wrap s, by decide⟩

theorem c10_trim_strips_all_quotes_witness :
    ('a' : Char) ≠ '"'
    ∧ trimQuoteMatches ("\"" ++ "x" ++ "\"") = trimQuoteMatches "x" :=
  ⟨(c10_trim_strips_all_quotes "\"ab").1 'a' (by decide),
   (c10_trim_strips_all_quotes "x").2.2.1⟩

end Robinrust
